import Mathlib

/-!
Shallow embedding of the CHSRMT heat-stress engine (`src/app.py`):
the numeric estimators (Stull natural wet-bulb, wind-damped globe
temperature, raw WBGT), the baseline-freeze state machine, the penalty
clamping pipeline, the threshold classifier and the deduplicating audit
log, together with theorems settling the claims about them.

Temperatures, humidities and wind speeds are Python floats in the source;
they are modelled as real numbers here.  Session state (`st.session_state`)
is modelled as an explicit `State` record and every Streamlit rerun of the
script is one application of `runScript`.
-/

noncomputable section

namespace CHSRMT

/-- An environmental reading: the five `st.session_state` input fields
`db_c`, `rh_pct`, `ws_ms`, `gt_c`, `p_kpa` (always internal units:
degrees C, m/s, kPa). -/
structure EnvReading where
  db : ℝ
  rh : ℝ
  ws : ℝ
  gt : ℝ
  p : ℝ

/-- The environment signature (`env_now` at app.py:409): the dictionary
with keys db, rh, gt, ws built each cycle and compared with `prev_env`.
Pressure is deliberately not part of the signature. -/
structure EnvSig where
  db : ℝ
  rh : ℝ
  gt : ℝ
  ws : ℝ

instance : DecidableEq EnvSig := fun a b => Classical.propDecidable (a = b)

/-- `env_now = {"db": db_c, "rh": rh, "gt": gt_c, "ws": ws_ms}` (app.py:409). -/
def sigOf (e : EnvReading) : EnvSig :=
  { db := e.db, rh := e.rh, gt := e.gt, ws := e.ws }

/-- Natural wet-bulb via the Stull approximation (app.py:422-428). -/
def twb (db rh : ℝ) : ℝ :=
  db * Real.arctan (0.151977 * Real.sqrt (rh + 8.313659))
    + Real.arctan (db + rh)
    - Real.arctan (rh - 1.676331)
    + 0.00391838 * rh ^ (1.5 : ℝ) * Real.arctan (0.023101 * rh)
    - 4.686035

/-- Wind-damped globe temperature (app.py:435-437):
`v = max(ws_ms, 0.1)`, `f_v = 1/(1+0.4*sqrt(v))`,
`gt_adj = db_c + (gt_c - db_c) * f_v`. -/
def gt_adj (db gt ws : ℝ) : ℝ :=
  db + (gt - db) * (1.0 / (1.0 + 0.4 * Real.sqrt (max ws 0.1)))

/-- Raw outdoor WBGT (app.py:442):
`wbgt_raw_c = 0.7*twb_c + 0.2*gt_adj + 0.1*db_c`. -/
def wbgt_raw (e : EnvReading) : ℝ :=
  0.7 * twb e.db e.rh + 0.2 * gt_adj e.db e.gt e.ws + 0.1 * e.db

/-- The risk bands produced by the classification if-chain (app.py:659-684). -/
inductive Band
  | Low
  | Caution
  | HighStrain
  | Withdrawal
deriving DecidableEq

/-- The band classification if-chain of BLOCK 7 (app.py:659-684):
`if eff < A: Low elif eff < B: Caution elif eff < C: HighStrain
else: Withdrawal`. -/
def classify (eff A B C : ℝ) : Band :=
  if eff < A then Band.Low
  else if eff < B then Band.Caution
  else if eff < C then Band.HighStrain
  else Band.Withdrawal

/-- The CHSI surrogate (app.py:708-709):
`chsi_raw = eff - 25.0`, `chsi_scaled = max(0, min(50, chsi_raw/10*50))`. -/
def chsi (eff : ℝ) : ℝ :=
  max 0 (min 50 ((eff - 25.0) / 10 * 50))

/-- One audit-log entry (app.py:740-751), a decision snapshot.
The numeric fields are kept as the underlying values (the source stores
their fixed-format decimal renderings); `risk` is `none` when the
`risk_band` key is still absent (the Python `ss.get("risk_band", "")`
default). -/
structure Entry where
  timestamp : String
  location : String
  db : ℝ
  rh : ℝ
  gt : ℝ
  base : ℝ
  penalty : ℝ
  eff : ℝ
  risk : Option Band
  chsi_val : ℝ

instance : DecidableEq Entry := fun a b => Classical.propDecidable (a = b)

/-- The dedup append of BLOCK 8 (app.py:753-755):
`if not audit_log or entry != audit_log[-1]: audit_log.append(entry)`. -/
def appendDedup {α : Type} [DecidableEq α] (log : List α) (x : α) : List α :=
  match log.getLast? with
  | none => log ++ [x]
  | some l => if x = l then log else log ++ [x]

/-- The session state relevant to the engine: `prev_env`,
`wbgt_base_frozen`, `penalties_applied`, `total_penalty_c`, `wbgt_eff_c`,
`wbgt_raw_c`, `wbgt_base_c`, the four staged penalty fields, the
classification outputs and the audit log.  `Option` models keys that may
be absent or hold Python `None`. -/
structure State where
  prev : Option EnvSig
  wbgt_base_frozen : Option ℝ
  penalties_applied : Bool
  total_penalty_c : ℝ
  wbgt_eff_c : Option ℝ
  wbgt_raw_c : Option ℝ
  wbgt_base_c : Option ℝ
  pen_clo_c : ℝ
  pen_veh_c : ℝ
  pen_rad_c : ℝ
  pen_adhoc_c : ℝ
  risk_band : Option Band
  chsi_scaled : Option ℝ
  audit_log : List Entry

/-- The session defaults (app.py:184-200) together with the initially
absent keys `prev_env`, `wbgt_base_frozen`, `penalties_applied`,
`wbgt_base_c`, `risk_band`, `chsi_scaled`. -/
def initState : State :=
  { prev := none
  , wbgt_base_frozen := none
  , penalties_applied := false
  , total_penalty_c := 0
  , wbgt_eff_c := none
  , wbgt_raw_c := none
  , wbgt_base_c := none
  , pen_clo_c := 0
  , pen_veh_c := 0
  , pen_rad_c := 0
  , pen_adhoc_c := 0
  , risk_band := none
  , chsi_scaled := none
  , audit_log := [] }

/-- The signature-change reset (app.py:410-415): clear the frozen
baseline, clear the applied-penalties flag, zero the total penalty and
reset the effective WBGT. -/
def resetEnv (s : State) : State :=
  { s with wbgt_base_frozen := none
         , penalties_applied := false
         , total_penalty_c := 0
         , wbgt_eff_c := none }

/-- BLOCK 5 (app.py:406-452): signature change detection and reset,
unconditional recomputation of raw WBGT, freeze-if-absent, and tying the
effective WBGT to the frozen baseline while no penalties are applied. -/
def baselineBlock (s : State) (e : EnvReading) : State :=
  let s1 := if s.prev = some (sigOf e) then s else resetEnv s
  let raw := wbgt_raw e
  let s2 := { s1 with prev := some (sigOf e)
                    , wbgt_raw_c := some raw
                    , wbgt_base_c := some raw }
  let s3 :=
    match s2.wbgt_base_frozen with
    | none => { s2 with wbgt_base_frozen := some raw }
    | some _ => s2
  if s3.penalties_applied then s3 else { s3 with wbgt_eff_c := s3.wbgt_base_frozen }

/-- One per-category safety clamp (app.py:562-565): `min(max(x, 0.0), hi)`. -/
def clampCat (x hi : ℝ) : ℝ := min (max x 0.0) hi

/-- The committed total penalty (app.py:562-568): clamp each category to
its ceiling (PPE 3, enclosure 3, radiant 5, adhoc 4) with floor 0, sum,
then cap the sum at 10.0. -/
def totalPenalty (ppe encl rad ahoc : ℝ) : ℝ :=
  min (clampCat ppe 3.0 + clampCat encl 3.0 + clampCat rad 5.0 + clampCat ahoc 4.0) 10.0

/-- The apply-penalties button handler, BLOCK 5B (app.py:549-574).
Returns the new state and whether the missing-baseline error was
reported.  With no frozen baseline nothing is mutated; otherwise the
clamped total is committed, the effective WBGT is set to frozen + total
and `penalties_applied` becomes true. -/
def applyPenalties (s : State) : State × Bool :=
  match s.wbgt_base_frozen with
  | none => (s, true)
  | some base =>
      let total := totalPenalty s.pen_clo_c s.pen_veh_c s.pen_rad_c s.pen_adhoc_c
      ({ s with total_penalty_c := total
              , wbgt_eff_c := some (base + total)
              , penalties_applied := true }, false)

/-- The acclimatization-adjusted thresholds of BLOCK 6 (app.py:602-611):
base cut-points 29/32/35 degrees C, all shifted down by 2.0 for
non-acclimatized workers. -/
def thresholds (accl : Bool) : ℝ × ℝ × ℝ :=
  if accl then (29.0, 32.0, 35.0) else (29.0 - 2.0, 32.0 - 2.0, 35.0 - 2.0)

/-- BLOCK 7 (app.py:649-710): when an effective WBGT exists, classify it
and store the band and the CHSI surrogate; otherwise do nothing. -/
def classifyBlock (s : State) (A B C : ℝ) : State :=
  match s.wbgt_eff_c with
  | none => s
  | some eff =>
      { s with risk_band := some (classify eff A B C)
             , chsi_scaled := some (chsi eff) }

/-- The audit snapshot entry (app.py:740-751), built from the current
reading and session state with the source's `ss.get(_, default)`
fallbacks. -/
def mkEntry (s : State) (e : EnvReading) (loc ts : String) : Entry :=
  { timestamp := ts
  , location := loc
  , db := e.db
  , rh := e.rh
  , gt := e.gt
  , base := s.wbgt_base_c.getD 0
  , penalty := s.total_penalty_c
  , eff := s.wbgt_eff_c.getD 0
  , risk := s.risk_band
  , chsi_val := (s.chsi_scaled).getD 0 }

/-- BLOCK 8 logging (app.py:738-755): only when `penalties_applied` is
true and an effective WBGT exists, append the snapshot unless it equals
the last entry. -/
def auditBlock (s : State) (e : EnvReading) (loc ts : String) : State :=
  if s.penalties_applied then
    match s.wbgt_eff_c with
    | none => s
    | some _ => { s with audit_log := appendDedup s.audit_log (mkEntry s e loc ts) }
  else s

/-- The export-control enable condition (app.py:759):
`can_export = bool(ss.get("penalties_applied", False))`. -/
def canExport (s : State) : Bool := s.penalties_applied

/-- One full top-to-bottom rerun of the script over the engine-relevant
blocks: BLOCK 5 (baseline and freeze), BLOCK 5B (only when the apply
button was clicked), BLOCK 6/7 (thresholds and classification), BLOCK 8
(audit logging).  `e` is the current environmental reading, `accl` the
acclimatization toggle, `loc`/`ts` the place label and timestamp used in
the audit snapshot. -/
def runScript (s : State) (e : EnvReading) (applyClicked accl : Bool)
    (loc ts : String) : State :=
  let s1 := baselineBlock s e
  let s2 := if applyClicked then (applyPenalties s1).1 else s1
  let T := thresholds accl
  let s3 := classifyBlock s2 T.1 T.2.1 T.2.2
  auditBlock s3 e loc ts

/-- States reachable in a session: the initial session defaults, closed
under full script reruns and under restaging the four penalty input
fields (the widgets of BLOCK 5A, app.py:501-541, which write
`pen_clo_c`, `pen_veh_c`, `pen_rad_c`, `pen_adhoc_c`). -/
inductive Reachable : State → Prop where
  | init : Reachable initState
  | run (s : State) (e : EnvReading) (c a : Bool) (l t : String) :
      Reachable s → Reachable (runScript s e c a l t)
  | stagePens (s : State) (p v r u : ℝ) :
      Reachable s →
        Reachable { s with pen_clo_c := p, pen_veh_c := v
                         , pen_rad_c := r, pen_adhoc_c := u }

/-- A concrete environmental reading (the spec scenario of section 8:
dry bulb 32 C, RH 60 percent, wind 1 m/s, globe 35 C). -/
def envA : EnvReading := { db := 32, rh := 60, ws := 1, gt := 35, p := 101.3 }

/-- A second concrete reading differing from `envA` only in dry bulb. -/
def envB : EnvReading := { db := 33, rh := 60, ws := 1, gt := 35, p := 101.3 }

/-- A concrete session state holding a frozen baseline for the
signature of `envA`. -/
def stateFrozenA : State :=
  { initState with prev := some (sigOf envA), wbgt_base_frozen := some 28 }

/-- A concrete audit-log entry used as a test vector. -/
def entryA : Entry :=
  { timestamp := "2026-01-01 09:00:00", location := "site"
  , db := 32, rh := 60, gt := 35, base := 28, penalty := 3, eff := 31
  , risk := some Band.Caution, chsi_val := 30 }

/-! ### Helper lemmas about the individual blocks -/

lemma baselineBlock_changed (s : State) (e : EnvReading)
    (h : ¬ s.prev = some (sigOf e)) :
    baselineBlock s e =
      { s with prev := some (sigOf e)
             , wbgt_base_frozen := some (wbgt_raw e)
             , penalties_applied := false
             , total_penalty_c := 0
             , wbgt_eff_c := some (wbgt_raw e)
             , wbgt_raw_c := some (wbgt_raw e)
             , wbgt_base_c := some (wbgt_raw e) } := by
  simp [baselineBlock, resetEnv, h]

lemma baselineBlock_same_some (s : State) (e : EnvReading) (b : ℝ)
    (h : s.prev = some (sigOf e)) (hf : s.wbgt_base_frozen = some b) :
    baselineBlock s e =
      { s with prev := some (sigOf e)
             , wbgt_raw_c := some (wbgt_raw e)
             , wbgt_base_c := some (wbgt_raw e)
             , wbgt_eff_c :=
                 if s.penalties_applied then s.wbgt_eff_c else some b } := by
  cases hp : s.penalties_applied <;> simp [baselineBlock, h, hf, hp]

lemma baselineBlock_prev (s : State) (e : EnvReading) :
    (baselineBlock s e).prev = some (sigOf e) := by
  by_cases h : s.prev = some (sigOf e) <;>
    cases hf : s.wbgt_base_frozen <;>
      simp [baselineBlock, resetEnv, h, hf, apply_ite]

lemma baselineBlock_frozen_isSome (s : State) (e : EnvReading) :
    ∃ b, (baselineBlock s e).wbgt_base_frozen = some b := by
  by_cases h : s.prev = some (sigOf e)
  · cases hf : s.wbgt_base_frozen with
    | none => exact ⟨wbgt_raw e, by simp [baselineBlock, h, hf, apply_ite]⟩
    | some b => exact ⟨b, by simp [baselineBlock, h, hf, apply_ite]⟩
  · exact ⟨wbgt_raw e, by simp [baselineBlock, resetEnv, h]⟩

lemma baselineBlock_log (s : State) (e : EnvReading) :
    (baselineBlock s e).audit_log = s.audit_log := by
  by_cases h : s.prev = some (sigOf e) <;>
    cases hf : s.wbgt_base_frozen <;>
      simp [baselineBlock, resetEnv, h, hf, apply_ite]

lemma baselineBlock_total (s : State) (e : EnvReading) :
    (baselineBlock s e).total_penalty_c =
      if s.prev = some (sigOf e) then s.total_penalty_c else 0 := by
  by_cases h : s.prev = some (sigOf e) <;>
    cases hf : s.wbgt_base_frozen <;>
      simp [baselineBlock, resetEnv, h, hf, apply_ite]

lemma applyPenalties_none (s : State) (hf : s.wbgt_base_frozen = none) :
    applyPenalties s = (s, true) := by
  simp [applyPenalties, hf]

lemma applyPenalties_some (s : State) (b : ℝ) (hf : s.wbgt_base_frozen = some b) :
    applyPenalties s =
      ({ s with total_penalty_c :=
                  totalPenalty s.pen_clo_c s.pen_veh_c s.pen_rad_c s.pen_adhoc_c
              , wbgt_eff_c := some (b +
                  totalPenalty s.pen_clo_c s.pen_veh_c s.pen_rad_c s.pen_adhoc_c)
              , penalties_applied := true }, false) := by
  simp [applyPenalties, hf]

lemma applyPenalties_prev (s : State) :
    ((applyPenalties s).1).prev = s.prev := by
  cases hf : s.wbgt_base_frozen <;> simp [applyPenalties, hf]

lemma applyPenalties_frozen (s : State) :
    ((applyPenalties s).1).wbgt_base_frozen = s.wbgt_base_frozen := by
  cases hf : s.wbgt_base_frozen <;> simp [applyPenalties, hf]

lemma applyPenalties_log (s : State) :
    ((applyPenalties s).1).audit_log = s.audit_log := by
  cases hf : s.wbgt_base_frozen <;> simp [applyPenalties, hf]

lemma applyPenalties_flag_some (s : State) (b : ℝ)
    (hf : s.wbgt_base_frozen = some b) :
    ((applyPenalties s).1).penalties_applied = true := by
  simp [applyPenalties, hf]

lemma classifyBlock_prev (s : State) (A B C : ℝ) :
    (classifyBlock s A B C).prev = s.prev := by
  cases he : s.wbgt_eff_c <;> simp [classifyBlock, he]

lemma classifyBlock_frozen (s : State) (A B C : ℝ) :
    (classifyBlock s A B C).wbgt_base_frozen = s.wbgt_base_frozen := by
  cases he : s.wbgt_eff_c <;> simp [classifyBlock, he]

lemma classifyBlock_flag (s : State) (A B C : ℝ) :
    (classifyBlock s A B C).penalties_applied = s.penalties_applied := by
  cases he : s.wbgt_eff_c <;> simp [classifyBlock, he]

lemma classifyBlock_total (s : State) (A B C : ℝ) :
    (classifyBlock s A B C).total_penalty_c = s.total_penalty_c := by
  cases he : s.wbgt_eff_c <;> simp [classifyBlock, he]

lemma classifyBlock_log (s : State) (A B C : ℝ) :
    (classifyBlock s A B C).audit_log = s.audit_log := by
  cases he : s.wbgt_eff_c <;> simp [classifyBlock, he]

lemma auditBlock_prev (s : State) (e : EnvReading) (loc ts : String) :
    (auditBlock s e loc ts).prev = s.prev := by
  cases hp : s.penalties_applied <;> cases he : s.wbgt_eff_c <;>
    simp [auditBlock, hp, he]

lemma auditBlock_frozen (s : State) (e : EnvReading) (loc ts : String) :
    (auditBlock s e loc ts).wbgt_base_frozen = s.wbgt_base_frozen := by
  cases hp : s.penalties_applied <;> cases he : s.wbgt_eff_c <;>
    simp [auditBlock, hp, he]

lemma auditBlock_flag (s : State) (e : EnvReading) (loc ts : String) :
    (auditBlock s e loc ts).penalties_applied = s.penalties_applied := by
  cases hp : s.penalties_applied <;> cases he : s.wbgt_eff_c <;>
    simp [auditBlock, hp, he]

lemma auditBlock_total (s : State) (e : EnvReading) (loc ts : String) :
    (auditBlock s e loc ts).total_penalty_c = s.total_penalty_c := by
  cases hp : s.penalties_applied <;> cases he : s.wbgt_eff_c <;>
    simp [auditBlock, hp, he]

lemma auditBlock_flag_false (s : State) (e : EnvReading) (loc ts : String)
    (hp : s.penalties_applied = false) : auditBlock s e loc ts = s := by
  simp [auditBlock, hp]

/-! ### Helper lemmas about a whole rerun -/

lemma runScript_prev (s : State) (e : EnvReading) (c a : Bool) (l t : String) :
    (runScript s e c a l t).prev = some (sigOf e) := by
  cases c <;>
    simp [runScript, auditBlock_prev, classifyBlock_prev, applyPenalties_prev,
      baselineBlock_prev]

lemma runScript_frozen (s : State) (e : EnvReading) (c a : Bool) (l t : String) :
    (runScript s e c a l t).wbgt_base_frozen =
      (baselineBlock s e).wbgt_base_frozen := by
  cases c <;>
    simp [runScript, auditBlock_frozen, classifyBlock_frozen, applyPenalties_frozen]

lemma runScript_flag_clicked (s : State) (e : EnvReading) (a : Bool)
    (l t : String) :
    (runScript s e true a l t).penalties_applied = true := by
  obtain ⟨b, hb⟩ := baselineBlock_frozen_isSome s e
  simp [runScript, auditBlock_flag, classifyBlock_flag,
    applyPenalties_flag_some _ b hb]

lemma runScript_flag_changed (s : State) (e : EnvReading) (a : Bool)
    (l t : String) (h : ¬ s.prev = some (sigOf e)) :
    (runScript s e false a l t).penalties_applied = false := by
  simp [runScript, auditBlock_flag, classifyBlock_flag,
    baselineBlock_changed s e h]

lemma runScript_total_changed (s : State) (e : EnvReading) (a : Bool)
    (l t : String) (h : ¬ s.prev = some (sigOf e)) :
    (runScript s e false a l t).total_penalty_c = 0 := by
  simp [runScript, auditBlock_total, classifyBlock_total,
    baselineBlock_changed s e h]

lemma baselineBlock_flag_same (s : State) (e : EnvReading)
    (h : s.prev = some (sigOf e)) :
    (baselineBlock s e).penalties_applied = s.penalties_applied := by
  cases hf : s.wbgt_base_frozen <;> simp [baselineBlock, h, hf, apply_ite]

lemma runScript_flag_same (s : State) (e : EnvReading) (a : Bool)
    (l t : String) (h : s.prev = some (sigOf e)) :
    (runScript s e false a l t).penalties_applied = s.penalties_applied := by
  simp [runScript, auditBlock_flag, classifyBlock_flag,
    baselineBlock_flag_same s e h]

lemma runScript_total_mem (s : State) (e : EnvReading) (c a : Bool)
    (l t : String) :
    (runScript s e c a l t).total_penalty_c = s.total_penalty_c ∨
    (runScript s e c a l t).total_penalty_c = 0 ∨
    ∃ p q r u, (runScript s e c a l t).total_penalty_c = totalPenalty p q r u := by
  have hb := baselineBlock_total s e
  cases c with
  | false =>
      have : (runScript s e false a l t).total_penalty_c =
          (baselineBlock s e).total_penalty_c := by
        simp [runScript, auditBlock_total, classifyBlock_total]
      rw [this, hb]
      by_cases h : s.prev = some (sigOf e) <;> simp [h]
  | true =>
      have h2 : (runScript s e true a l t).total_penalty_c =
          ((applyPenalties (baselineBlock s e)).1).total_penalty_c := by
        simp [runScript, auditBlock_total, classifyBlock_total]
      cases hf : (baselineBlock s e).wbgt_base_frozen with
      | none =>
          rw [h2, applyPenalties_none _ hf, hb]
          by_cases h : s.prev = some (sigOf e) <;> simp [h]
      | some b =>
          rw [h2, applyPenalties_some _ b hf]
          exact Or.inr (Or.inr ⟨_, _, _, _, rfl⟩)

lemma clampCat_nonneg (x hi : ℝ) (hhi : 0 ≤ hi) : 0 ≤ clampCat x hi := by
  unfold clampCat
  apply le_min _ hhi
  rw [le_max_iff]
  right
  norm_num

lemma clampCat_of_neg (x hi : ℝ) (hx : x < 0) (hhi : 0 ≤ hi) :
    clampCat x hi = 0 := by
  unfold clampCat
  have hx0 : x ≤ (0.0 : ℝ) := by norm_num; linarith
  rw [max_eq_right hx0, min_eq_left (by norm_num; linarith)]
  norm_num

lemma clampCat_of_gt (x hi : ℝ) (hx : hi < x) (hhi : 0 ≤ hi) :
    clampCat x hi = hi := by
  unfold clampCat
  have hx0 : (0.0 : ℝ) ≤ x := by norm_num; linarith
  rw [max_eq_left hx0, min_eq_right hx.le]

lemma totalPenalty_nonneg (p q r u : ℝ) : 0 ≤ totalPenalty p q r u := by
  unfold totalPenalty
  apply le_min _ (by norm_num)
  have h1 := clampCat_nonneg p 3.0 (by norm_num)
  have h2 := clampCat_nonneg q 3.0 (by norm_num)
  have h3 := clampCat_nonneg r 5.0 (by norm_num)
  have h4 := clampCat_nonneg u 4.0 (by norm_num)
  linarith

lemma totalPenalty_le_ten (p q r u : ℝ) : totalPenalty p q r u ≤ 10 := by
  have := min_le_right
    (clampCat p 3.0 + clampCat q 3.0 + clampCat r 5.0 + clampCat u 4.0) 10.0
  unfold totalPenalty
  norm_num at this ⊢

lemma classify_eq_low_iff (eff A B C : ℝ) :
    classify eff A B C = Band.Low ↔ eff < A := by
  unfold classify
  split_ifs with h1 h2 h3
  · exact iff_of_true rfl h1
  · exact iff_of_false (by decide) h1
  · exact iff_of_false (by decide) h1
  · exact iff_of_false (by decide) h1

lemma classify_eq_caution_iff (eff A B C : ℝ) :
    classify eff A B C = Band.Caution ↔ A ≤ eff ∧ eff < B := by
  unfold classify
  split_ifs with h1 h2 h3
  · exact iff_of_false (by decide) (fun h => (not_lt.mpr h.1) h1)
  · exact iff_of_true rfl ⟨not_lt.mp h1, h2⟩
  · exact iff_of_false (by decide) (fun h => h2 h.2)
  · exact iff_of_false (by decide) (fun h => h2 h.2)

lemma classify_eq_high_iff (eff A B C : ℝ) (hAB : A ≤ B) :
    classify eff A B C = Band.HighStrain ↔ B ≤ eff ∧ eff < C := by
  unfold classify
  split_ifs with h1 h2 h3
  · exact iff_of_false (by decide) (fun h => (not_lt.mpr (hAB.trans h.1)) h1)
  · exact iff_of_false (by decide) (fun h => (not_lt.mpr h.1) h2)
  · exact iff_of_true rfl ⟨not_lt.mp h2, h3⟩
  · exact iff_of_false (by decide) (fun h => h3 h.2)

lemma classify_eq_withdrawal_iff (eff A B C : ℝ) (hAB : A ≤ B) (hBC : B ≤ C) :
    classify eff A B C = Band.Withdrawal ↔ C ≤ eff := by
  unfold classify
  split_ifs with h1 h2 h3
  · exact iff_of_false (by decide) (fun h => (not_lt.mpr ((hAB.trans hBC).trans h)) h1)
  · exact iff_of_false (by decide) (fun h => (not_lt.mpr (hBC.trans h)) h2)
  · exact iff_of_false (by decide) (fun h => (not_lt.mpr h) h3)
  · exact iff_of_true rfl (not_lt.mp h3)

/-! ### The claims -/

/-- C2: from a state holding a frozen baseline, a cycle whose reading
differs from the stored signature in any one of dry bulb, relative
humidity, wind speed or globe temperature ends with the applied-penalties
flag cleared, the total penalty zeroed, and a fresh frozen baseline equal
to the newly computed raw WBGT — never left absent. -/
theorem change_detection_rearm (s : State) (e : EnvReading) (g : EnvSig)
    (b : ℝ) (a : Bool) (l t : String)
    (hprev : s.prev = some g) (hfroz : s.wbgt_base_frozen = some b)
    (hdiff : ¬ g.db = e.db ∨ ¬ g.rh = e.rh ∨ ¬ g.ws = e.ws ∨ ¬ g.gt = e.gt) :
    (runScript s e false a l t).wbgt_base_frozen = some (wbgt_raw e) ∧
    (runScript s e false a l t).penalties_applied = false ∧
    (runScript s e false a l t).total_penalty_c = 0 ∧
    ¬ (runScript s e false a l t).wbgt_base_frozen = none := by
  have hne : ¬ s.prev = some (sigOf e) := by
    rw [hprev]
    intro hEq
    have hg : g = sigOf e := by injection hEq
    rcases hdiff with h | h | h | h <;> exact h (by rw [hg]; rfl)
  have h1 : (runScript s e false a l t).wbgt_base_frozen = some (wbgt_raw e) := by
    rw [runScript_frozen, baselineBlock_changed s e hne]
  exact ⟨h1, runScript_flag_changed s e a l t hne,
    runScript_total_changed s e a l t hne, by rw [h1]; simp⟩

/-- C2 witness: a concrete frozen state and a reading differing in dry
bulb re-arm the baseline within the cycle. -/
theorem change_detection_rearm_witness :
    (stateFrozenA.prev = some (sigOf envA) ∧
      stateFrozenA.wbgt_base_frozen = some 28 ∧
      (¬ (sigOf envA).db = envB.db ∨ ¬ (sigOf envA).rh = envB.rh ∨
        ¬ (sigOf envA).ws = envB.ws ∨ ¬ (sigOf envA).gt = envB.gt)) ∧
    ((runScript stateFrozenA envB false true "" "ts").wbgt_base_frozen =
        some (wbgt_raw envB) ∧
      (runScript stateFrozenA envB false true "" "ts").penalties_applied = false ∧
      (runScript stateFrozenA envB false true "" "ts").total_penalty_c = 0 ∧
      ¬ (runScript stateFrozenA envB false true "" "ts").wbgt_base_frozen = none) :=
  ⟨⟨rfl, rfl, Or.inl (by norm_num [sigOf, envA, envB])⟩,
    change_detection_rearm stateFrozenA envB (sigOf envA) 28 true "" "ts" rfl rfl
      (Or.inl (by norm_num [sigOf, envA, envB]))⟩

/-- C3: with an unchanged environment signature, a full rerun never
changes the frozen baseline, although raw WBGT is recomputed each cycle:
the freeze is sticky per signature. -/
theorem frozen_baseline_idempotent (s : State) (e : EnvReading) (b : ℝ)
    (c a : Bool) (l t : String)
    (hprev : s.prev = some (sigOf e)) (hfroz : s.wbgt_base_frozen = some b) :
    (runScript s e c a l t).wbgt_base_frozen = some b := by
  rw [runScript_frozen, baselineBlock_same_some s e b hprev hfroz]
  exact hfroz

/-- C3 witness: rerunning on the concrete frozen state with the same
reading keeps the frozen value 28. -/
theorem frozen_baseline_idempotent_witness :
    (stateFrozenA.prev = some (sigOf envA) ∧
      stateFrozenA.wbgt_base_frozen = some 28) ∧
    (runScript stateFrozenA envA false true "" "ts").wbgt_base_frozen = some 28 :=
  ⟨⟨rfl, rfl⟩,
    frozen_baseline_idempotent stateFrozenA envA 28 false true "" "ts" rfl rfl⟩

/-- C4: the apply action clamps each category independently to its
ceiling with floor 0 (PPE and enclosure to 3, radiant to 5, adhoc to 4):
out-of-range inputs commit the boundary value, and a clamped sum above
10.0 commits exactly 10.0. -/
theorem penalty_clamping_cap (p q r u : ℝ) :
    (p < 0 → clampCat p 3.0 = 0) ∧ (3 < p → clampCat p 3.0 = 3) ∧
    (q < 0 → clampCat q 3.0 = 0) ∧ (3 < q → clampCat q 3.0 = 3) ∧
    (r < 0 → clampCat r 5.0 = 0) ∧ (5 < r → clampCat r 5.0 = 5) ∧
    (u < 0 → clampCat u 4.0 = 0) ∧ (4 < u → clampCat u 4.0 = 4) ∧
    (10 < clampCat p 3.0 + clampCat q 3.0 + clampCat r 5.0 + clampCat u 4.0 →
      totalPenalty p q r u = 10) := by
  refine ⟨?_, ?_, ?_, ?_, ?_, ?_, ?_, ?_, ?_⟩ <;> intro h
  · exact clampCat_of_neg p 3.0 h (by norm_num)
  · rw [clampCat_of_gt p 3.0 (by linarith) (by norm_num)]; norm_num
  · exact clampCat_of_neg q 3.0 h (by norm_num)
  · rw [clampCat_of_gt q 3.0 (by linarith) (by norm_num)]; norm_num
  · exact clampCat_of_neg r 5.0 h (by norm_num)
  · rw [clampCat_of_gt r 5.0 (by linarith) (by norm_num)]; norm_num
  · exact clampCat_of_neg u 4.0 h (by norm_num)
  · rw [clampCat_of_gt u 4.0 (by linarith) (by norm_num)]; norm_num
  · unfold totalPenalty
    rw [min_eq_right (by linarith)]
    norm_num

/-- C4 witness: a negative PPE input commits 0, radiant 6 commits 5, and
the spec scenario 3+2+4+4 commits the capped 10.0. -/
theorem penalty_clamping_cap_witness :
    clampCat (-1) 3.0 = 0 ∧ clampCat 6 5.0 = 5 ∧ totalPenalty 3 2 4 4 = 10 := by
  refine ⟨(penalty_clamping_cap (-1) 0 0 0).1 (by norm_num),
    (penalty_clamping_cap 0 0 6 0).2.2.2.2.2.1 (by norm_num),
    (penalty_clamping_cap 3 2 4 4).2.2.2.2.2.2.2.2 ?_⟩
  norm_num [clampCat, min_def, max_def]

/-- C5: for thresholds A < B < C, the classifier realises the half-open
bands Low on (-inf,A), Caution on [A,B), HighStrain on [B,C) and
Withdrawal on [C,inf); in particular a value exactly A is Caution and a
value exactly C is Withdrawal. -/
theorem classification_half_open_bands (eff A B C : ℝ)
    (hAB : A < B) (hBC : B < C) :
    (classify eff A B C = Band.Low ↔ eff < A) ∧
    (classify eff A B C = Band.Caution ↔ A ≤ eff ∧ eff < B) ∧
    (classify eff A B C = Band.HighStrain ↔ B ≤ eff ∧ eff < C) ∧
    (classify eff A B C = Band.Withdrawal ↔ C ≤ eff) ∧
    classify A A B C = Band.Caution ∧
    classify C A B C = Band.Withdrawal :=
  ⟨classify_eq_low_iff eff A B C,
    classify_eq_caution_iff eff A B C,
    classify_eq_high_iff eff A B C hAB.le,
    classify_eq_withdrawal_iff eff A B C hAB.le hBC.le,
    (classify_eq_caution_iff A A B C).mpr ⟨le_refl A, hAB⟩,
    (classify_eq_withdrawal_iff C A B C hAB.le hBC.le).mpr (le_refl C)⟩

/-- C5 witness: the NIOSH acclimatized thresholds 29 < 32 < 35 with
effective WBGT 30. -/
theorem classification_half_open_bands_witness :
    ((29:ℝ) < 32 ∧ (32:ℝ) < 35) ∧
    ((classify 30 29 32 35 = Band.Low ↔ (30:ℝ) < 29) ∧
      (classify 30 29 32 35 = Band.Caution ↔ (29:ℝ) ≤ 30 ∧ (30:ℝ) < 32) ∧
      (classify 30 29 32 35 = Band.HighStrain ↔ (32:ℝ) ≤ 30 ∧ (30:ℝ) < 35) ∧
      (classify 30 29 32 35 = Band.Withdrawal ↔ (35:ℝ) ≤ 30) ∧
      classify 29 29 32 35 = Band.Caution ∧
      classify 35 29 32 35 = Band.Withdrawal) :=
  ⟨⟨by norm_num, by norm_num⟩,
    classification_half_open_bands 30 29 32 35 (by norm_num) (by norm_num)⟩

/-- C6: the apply handler reports the missing-baseline error exactly when
no frozen baseline is held, and in that case the whole state (total
penalty, effective WBGT, flag, audit log) is left untouched. -/
theorem apply_without_baseline_no_mutation (s : State) :
    ((applyPenalties s).2 = true ↔ s.wbgt_base_frozen = none) ∧
    ((applyPenalties s).2 = false ∨ (applyPenalties s).1 = s) := by
  cases hf : s.wbgt_base_frozen with
  | none => simp [applyPenalties_none s hf]
  | some b => rw [applyPenalties_some s b hf]; simp [hf]

/-- C6 witness: the initial state (no frozen baseline) errors and is
unchanged. -/
theorem apply_without_baseline_no_mutation_witness :
    ((applyPenalties initState).2 = true ↔ initState.wbgt_base_frozen = none) ∧
    ((applyPenalties initState).2 = false ∨
      (applyPenalties initState).1 = initState) :=
  apply_without_baseline_no_mutation initState

/-- C7: the audit append suppresses exactly a candidate equal to the
current last entry (leaving the log unchanged) and otherwise appends it
at the end; in every case the old log is a prefix, so the log is
append-only with insertion order preserved. -/
theorem audit_dedup_append (log : List Entry) (x : Entry) :
    appendDedup log x =
      (if log.getLast? = some x then log else log ++ [x]) ∧
    ∃ tail, appendDedup log x = log ++ tail := by
  constructor
  · cases hl : log.getLast? with
    | none => simp [appendDedup, hl]
    | some l =>
        by_cases hxl : x = l
        · subst hxl
          simp [appendDedup, hl]
        · simp [appendDedup, hl, hxl, Ne.symm hxl]
  · cases hl : log.getLast? with
    | none => exact ⟨[x], by simp [appendDedup, hl]⟩
    | some l =>
        by_cases hxl : x = l
        · exact ⟨[], by simp [appendDedup, hl, hxl]⟩
        · exact ⟨[x], by simp [appendDedup, hl, hxl]⟩

/-- C7 witness: re-appending the concrete entry that is already last
leaves the log unchanged. -/
theorem audit_dedup_append_witness :
    appendDedup [entryA] entryA =
      (if [entryA].getLast? = some entryA then [entryA] else [entryA] ++ [entryA]) ∧
    ∃ tail, appendDedup [entryA] entryA = [entryA] ++ tail :=
  audit_dedup_append [entryA] entryA

/-- C8: for nonnegative wind, the wind-damped globe temperature lies
between dry bulb and raw globe temperature inclusive, because the
damping factor lies in (0,1]. -/
theorem gt_adj_between (db gt ws : ℝ) (hws : 0 ≤ ws) :
    min db gt ≤ gt_adj db gt ws ∧ gt_adj db gt ws ≤ max db gt := by
  have hs : 0 ≤ Real.sqrt (max ws 0.1) := Real.sqrt_nonneg _
  have hd : (1:ℝ) ≤ 1.0 + 0.4 * Real.sqrt (max ws 0.1) := by nlinarith
  have hd0 : (0:ℝ) < 1.0 + 0.4 * Real.sqrt (max ws 0.1) := by linarith
  have hf0 : 0 < 1.0 / (1.0 + 0.4 * Real.sqrt (max ws 0.1)) := by positivity
  have hf1 : 1.0 / (1.0 + 0.4 * Real.sqrt (max ws 0.1)) ≤ 1 := by
    rw [div_le_one hd0]
    linarith
  unfold gt_adj
  rcases le_total db gt with hc | hc
  · rw [min_eq_left hc, max_eq_right hc]
    constructor
    · nlinarith [mul_nonneg (sub_nonneg.mpr hc) hf0.le]
    · nlinarith [mul_le_of_le_one_right (sub_nonneg.mpr hc) hf1]
  · rw [min_eq_right hc, max_eq_left hc]
    constructor
    · nlinarith [mul_nonneg (sub_nonneg.mpr hc) (sub_nonneg.mpr hf1)]
    · nlinarith [mul_nonneg (sub_nonneg.mpr hc) hf0.le]

/-- C8 witness: the spec scenario dry bulb 32, globe 35, wind 1 m/s. -/
theorem gt_adj_between_witness :
    (0:ℝ) ≤ 1 ∧
    (min (32:ℝ) 35 ≤ gt_adj 32 35 1 ∧ gt_adj 32 35 1 ≤ max (32:ℝ) 35) :=
  ⟨by norm_num, gt_adj_between 32 35 1 (by norm_num)⟩

/-- C9: the baseline block of every full cycle unconditionally leaves a
frozen baseline in place, so the apply handler that runs later in the
same cycle never reports its missing-baseline error. -/
theorem baseline_established_before_apply (s : State) (e : EnvReading) :
    (∃ b, (baselineBlock s e).wbgt_base_frozen = some b) ∧
    (applyPenalties (baselineBlock s e)).2 = false := by
  obtain ⟨b, hb⟩ := baselineBlock_frozen_isSome s e
  refine ⟨⟨b, hb⟩, ?_⟩
  rw [applyPenalties_some _ b hb]

/-- C9 witness: the initial state and the scenario reading. -/
theorem baseline_established_before_apply_witness :
    (∃ b, (baselineBlock initState envA).wbgt_base_frozen = some b) ∧
    (applyPenalties (baselineBlock initState envA)).2 = false :=
  baseline_established_before_apply initState envA

/-- C10: in every reachable session state the committed total penalty
lies in [0, 10]: it starts at 0, is reset to 0 on signature change, and
is otherwise only ever set to the clamped, capped sum. -/
theorem total_penalty_invariant (s : State) (h : Reachable s) :
    0 ≤ s.total_penalty_c ∧ s.total_penalty_c ≤ 10 := by
  induction h with
  | init => norm_num [initState]
  | run s e c a l t hr ih =>
      rcases runScript_total_mem s e c a l t with h1 | h1 | ⟨p, q, r, u, h1⟩ <;>
        rw [h1]
      · exact ih
      · norm_num
      · exact ⟨totalPenalty_nonneg p q r u, totalPenalty_le_ten p q r u⟩
  | stagePens s p v r u hr ih => exact ih

/-- C10 witness: the initial state is reachable and satisfies the
invariant. -/
theorem total_penalty_invariant_witness :
    Reachable initState ∧
    (0 ≤ initState.total_penalty_c ∧ initState.total_penalty_c ≤ 10) :=
  ⟨Reachable.init, total_penalty_invariant initState Reachable.init⟩

/-- C1 counterexample: the export control does not stay enabled for the
rest of the session once an apply action enabled it.  Applying on the
reading `envA` enables export, but the very next cycle with the changed
reading `envB` disables it again, although `penalties_applied` has been
true at least once in the session. -/
theorem export_gating_counterexample :
    canExport (runScript initState envA true true "" "t1") = true ∧
    canExport (runScript (runScript initState envA true true "" "t1")
      envB false true "" "t2") = false := by
  constructor
  · exact runScript_flag_clicked initState envA true "" "t1"
  · have hprev : (runScript initState envA true true "" "t1").prev =
        some (sigOf envA) := runScript_prev initState envA true true "" "t1"
    have hne : ¬ (runScript initState envA true true "" "t1").prev =
        some (sigOf envB) := by
      rw [hprev]
      intro hEq
      have hg : sigOf envA = sigOf envB := by injection hEq
      have : (sigOf envA).db = (sigOf envB).db := by rw [hg]
      norm_num [sigOf, envA, envB] at this
    exact runScript_flag_changed _ envB true "" "t2" hne

/-- C1 amended: the export control is enabled exactly when the
`penalties_applied` flag is currently true — a pure function of the flag,
independent of the audit log: an apply cycle enables it, a cycle with a
changed environment signature disables it again, and a cycle with an
unchanged signature and no apply click preserves it. -/
theorem export_gating_amended (s : State) (e : EnvReading) (a : Bool)
    (l t : String) :
    canExport (runScript s e true a l t) = true ∧
    (¬ s.prev = some (sigOf e) →
      canExport (runScript s e false a l t) = false) ∧
    (s.prev = some (sigOf e) →
      canExport (runScript s e false a l t) = canExport s) ∧
    (∀ log : List Entry, canExport { s with audit_log := log } = canExport s) :=
  ⟨runScript_flag_clicked s e a l t,
    fun h => runScript_flag_changed s e a l t h,
    fun h => runScript_flag_same s e a l t h,
    fun _ => rfl⟩

/-- C1 witness: the amended statement at the initial state and the
scenario reading. -/
theorem export_gating_amended_witness :
    canExport (runScript initState envA true true "" "ts") = true ∧
    (¬ initState.prev = some (sigOf envA) →
      canExport (runScript initState envA false true "" "ts") = false) ∧
    (initState.prev = some (sigOf envA) →
      canExport (runScript initState envA false true "" "ts") =
        canExport initState) ∧
    (∀ log : List Entry,
      canExport { initState with audit_log := log } = canExport initState) :=
  export_gating_amended initState envA true "" "ts"

end CHSRMT
